import Mathlib

/-!
Shallow embedding of `src/mcp_openrouter/client.py` and the relevant parts of
`src/mcp_openrouter/server.py` (repository tsilva/mcp-openrouter), together
with theorems settling the specification claims about the HTTP transport and
retry layer and the request/response shaping operations.

The transport is modelled as a deterministic loop over a "response oracle"
`responses : Nat → Resp β` giving the outcome of the i-th HTTP attempt
(0-indexed).  The loop is driven by fuel equal to `max_retries.toNat`,
mirroring Python's `for attempt in range(max_retries)`.  The trace records
the final result, the list of backoff sleeps performed, the number of HTTP
attempts actually issued, and which exit branch produced the result.
-/

namespace McpOpenRouter

/-- Outcome of one HTTP attempt, as classified by `_request`:
a 200 response with parsed JSON body; a non-200 response carrying an HTTP
status, an optional `error.code`, an optional `error.message` and the raw
response text; a `requests.exceptions.Timeout`; or another
`requests.exceptions.RequestException` (connection-level failure). -/
inductive Resp (β : Type) where
  | ok (body : β)
  | httpErr (status : Nat) (errCode : Option Nat) (errMsg : Option String) (text : String)
  | timeout
  | netExc (cause : String)

/-- Which branch of `_request` terminated the loop. -/
inductive ExitKind where
  | success
  | httpFail
  | timeoutFail
  | netFail
  | exhausted
deriving DecidableEq, Repr

/-- Observable trace of one `_request` call: final result, the sleeps
performed (in order), the number of HTTP attempts issued, and the exit
branch. -/
structure ReqTrace (β : Type) where
  result : Except String β
  sleeps : List Nat
  attemptsMade : Nat
  exit : ExitKind

/-- The retryable status codes of client.py line 55: `[408, 429, 502, 503]`. -/
def retryable_codes : List Nat := [408, 429, 502, 503]

/-- The fixed friendly-message lookup table of client.py lines 65-71. -/
def error_messages (code : Nat) : Option String :=
  if code = 400 then some "Bad request - check parameters"
  else if code = 401 then some "Invalid API key - check OPENROUTER_API_KEY"
  else if code = 402 then some "Insufficient credits - add funds at openrouter.ai"
  else if code = 403 then some "Content flagged by moderation"
  else if code = 429 then some "Rate limited - wait before retrying"
  else none

/-- The retry loop of `OpenRouterClient._request` (client.py lines 38-82),
with `fuel = max_retries.toNat - attempt` counting the remaining loop
iterations.  Exhausting the fuel is the loop falling through to line 82
(`raise Exception("Max retries exceeded")`). -/
def requestAux {β : Type} (responses : Nat → Resp β) (maxRetries : Int) :
    Nat → Nat → ReqTrace β
  | _, 0 => ⟨Except.error "Max retries exceeded", [], 0, ExitKind.exhausted⟩
  | attempt, fuel + 1 =>
    match responses attempt with
    | Resp.ok body => ⟨Except.ok body, [], 1, ExitKind.success⟩
    | Resp.httpErr status errCode errMsg text =>
      let code := errCode.getD status
      let message := errMsg.getD text
      if retryable_codes.contains code && decide ((attempt : Int) < maxRetries - 1) then
        let wait := min (2 ^ attempt * 2) 30
        let rest := requestAux responses maxRetries (attempt + 1) fuel
        ⟨rest.result, wait :: rest.sleeps, rest.attemptsMade + 1, rest.exit⟩
      else
        let msg := (error_messages code).getD message
        ⟨Except.error ("OpenRouter error " ++ toString code ++ ": " ++ msg), [], 1,
          ExitKind.httpFail⟩
    | Resp.timeout =>
      if decide ((attempt : Int) < maxRetries - 1) then
        let rest := requestAux responses maxRetries (attempt + 1) fuel
        ⟨rest.result, rest.sleeps, rest.attemptsMade + 1, rest.exit⟩
      else
        ⟨Except.error "Request timed out after retries", [], 1, ExitKind.timeoutFail⟩
    | Resp.netExc cause =>
      ⟨Except.error ("Network error: " ++ cause), [], 1, ExitKind.netFail⟩

/-- `OpenRouterClient._request(method, endpoint, payload, max_retries)`:
runs the retry loop from attempt 0 with `max_retries.toNat` iterations
(`for attempt in range(max_retries)`). -/
def request {β : Type} (responses : Nat → Resp β) (maxRetries : Int) : ReqTrace β :=
  requestAux responses maxRetries 0 maxRetries.toNat

/-- Whether an attempt outcome is a non-200 response whose extracted code is
in the retryable set (the condition on client.py line 55, ignoring the
attempt bound). -/
def isRetryableResp {β : Type} : Resp β → Bool
  | Resp.httpErr status errCode _ _ => retryable_codes.contains (errCode.getD status)
  | _ => false

/-- Python truthiness of an optional string parameter: `None` and the empty
string are falsy (the `if system:` / `if background:` pattern). -/
def strTruthy : Option String → Bool
  | none => false
  | some s => s != ""
/-- Python's `str.split(sep)` for a one-character separator, modelled over
the character list (`"".split(",")` gives `[""]`, every separator
occurrence splits). -/
def pySplit (s : String) (c : Char) : List String :=
  (s.toList.splitOn c).map String.mk

/-- One chat message dict `{"role": ..., "content": ...}`. -/
structure Message where
  role : String
  content : String
deriving DecidableEq, Repr

/-- The payload built by `OpenRouterClient.chat` (client.py line 95), before
the `**kwargs` merge (no claim concerns the extra options, which are merged
verbatim). -/
structure ChatPayload where
  model : String
  messages : List Message
deriving DecidableEq, Repr

/-- The message list built by `chat_simple` (client.py lines 111-114). -/
def chat_simple_messages (prompt : String) (system : Option String) : List Message :=
  let messages : List Message := []
  let messages :=
    if strTruthy system then messages ++ [⟨"system", system.getD ""⟩] else messages
  messages ++ [⟨"user", prompt⟩]

/-- The `"url"` field of an image entry's `"image_url"` dict. -/
structure ImageUrl where
  url : String
deriving DecidableEq, Repr

/-- One entry of `choices[0].message.images`. -/
structure ImageEntry where
  image_url : ImageUrl
deriving DecidableEq, Repr

/-- The `"message"` dict of a choice; dict keys that may be absent are
`Option`-valued (a `dict` lookup without a default raises `KeyError`). -/
structure ChatMessage where
  content : Option String
  images : Option (List ImageEntry)
deriving DecidableEq, Repr

/-- One entry of the response's `"choices"` list. -/
structure Choice where
  message : Option ChatMessage
deriving DecidableEq, Repr

/-- A parsed success body of `chat/completions`, restricted to the keys the
client reads. -/
structure ChatResponse where
  choices : Option (List Choice)
deriving DecidableEq, Repr

/-- The extraction `result["choices"][0]["message"]["content"]` of client.py
line 117; each missing key or empty list raises (KeyError / IndexError). -/
def chat_simple_extract (r : ChatResponse) : Except String String :=
  match r.choices with
  | none => Except.error "KeyError: choices"
  | some [] => Except.error "IndexError: list index out of range"
  | some (c :: _) =>
    match c.message with
    | none => Except.error "KeyError: message"
    | some m =>
      match m.content with
      | none => Except.error "KeyError: content"
      | some text => Except.ok text

/-- `OpenRouterClient.chat_simple` (client.py lines 99-117): builds the
message list, sends the chat payload through the transport, and extracts
`choices[0].message.content`.  Returns the payload sent together with the
call's result. -/
def chat_simple (model prompt : String) (system : Option String)
    (responses : Nat → Resp ChatResponse) (maxRetries : Int) :
    ChatPayload × Except String String :=
  let messages := chat_simple_messages prompt system
  let payload : ChatPayload := ⟨model, messages⟩
  let tr := request responses maxRetries
  (payload,
    match tr.result with
    | Except.ok r => chat_simple_extract r
    | Except.error e => Except.error e)

/-- A resolved absolute filesystem path, represented as pathlib represents a
normalized POSIX path internally: the ordered list of name components after
the root (so `/out/img.png` is `⟨["out", "img.png"]⟩` and `/` is `⟨[]⟩`).
`Path.resolve()` always yields such a path. -/
structure AbsPath where
  components : List String
deriving DecidableEq, Repr

/-- `Path.parent`: drop the last component (`Path("/").parent` is `/`). -/
def AbsPath.parent (p : AbsPath) : AbsPath :=
  ⟨p.components.dropLast⟩

/-- `Path.name`: the last component, or `""` for the root. -/
def AbsPath.name (p : AbsPath) : String :=
  p.components.getLast?.getD ""

/-- The `/` operator on a resolved directory and a plain file name. -/
def AbsPath.child (p : AbsPath) (n : String) : AbsPath :=
  ⟨p.components ++ [n]⟩

/-- Index of the last occurrence of a character in a character list
(`str.rfind`, `none` when absent). -/
def lastIdxOf (c : Char) : List Char → Option Nat
  | [] => none
  | a :: rest =>
    match lastIdxOf c rest with
    | some i => some (i + 1)
    | none => if a = c then some 0 else none

/-- `Path.suffix` on a name component: `name[i:]` for `i = name.rfind('.')`
when `0 < i < len(name) - 1`, else `""`. -/
def nameSuffix (name : String) : String :=
  let cs := name.toList
  match lastIdxOf '.' cs with
  | none => ""
  | some i => if 0 < i ∧ i < cs.length - 1 then String.mk (cs.drop i) else ""

/-- `Path.stem` on a name component: `name[:i]` for `i = name.rfind('.')`
when `0 < i < len(name) - 1`, else the whole name. -/
def nameStem (name : String) : String :=
  let cs := name.toList
  match lastIdxOf '.' cs with
  | none => name
  | some i => if 0 < i ∧ i < cs.length - 1 then String.mk (cs.take i) else name

/-- The nested `image_config` dict of the image payload. -/
structure ImageConfig where
  aspect_ratio : String
  image_size : String
deriving DecidableEq, Repr

/-- The request payload built by `generate_image` (client.py lines 145-161).
An optional top-level field holds `none` when the key is omitted from the
dict (which happens exactly when the parameter is falsy). -/
structure ImagePayload where
  model : String
  messages : List Message
  modalities : List String
  image_config : ImageConfig
  n : Nat
  background : Option String
  quality : Option String
  output_format : Option String
deriving DecidableEq, Repr

/-- Payload construction of `generate_image` (client.py lines 145-161):
`background`, `quality` and `output_format` become top-level keys only when
truthy. -/
def generate_image_payload (model prompt aspect_ratio size : String)
    (background quality output_format : Option String) : ImagePayload :=
  { model := model
    messages := [⟨"user", prompt⟩]
    modalities := ["image", "text"]
    image_config := ⟨aspect_ratio, size⟩
    n := 1
    background := if strTruthy background then background else none
    quality := if strTruthy quality then quality else none
    output_format := if strTruthy output_format then output_format else none }

/-- The extraction `result["choices"][0]["message"].get("images", [])` of
client.py line 164: a missing `images` key defaults to the empty list, but a
missing `choices`/`message` key or an empty `choices` list raises. -/
def generate_image_extract (r : ChatResponse) : Except String (List ImageEntry) :=
  match r.choices with
  | none => Except.error "KeyError: choices"
  | some [] => Except.error "IndexError: list index out of range"
  | some (c :: _) =>
    match c.message with
    | none => Except.error "KeyError: message"
    | some m => Except.ok (m.images.getD [])

/-- The write loop of client.py lines 169-177, started at `idx`.  For each
image, `data_url.split(",")[1]` extracts the base64 payload (raising
`IndexError` when the data URL has no comma, which aborts the loop after the
files already written); the target path is the output path itself for a
single image, else `{stem}_{idx}{suffix}` next to it.  A file's written
content is represented by its base64 payload (the `base64.b64decode` call is
a fixed injective decoding of it and no claim concerns raw bytes). -/
def persistFiles (output : AbsPath) (total : Nat) :
    List ImageEntry → Nat → List (AbsPath × String) × Option String
  | [], _ => ([], none)
  | img :: rest, idx =>
    match (pySplit img.image_url.url ',').get? 1 with
    | none => ([], some "IndexError: list index out of range")
    | some base64_data =>
      let path :=
        if total = 1 then output
        else AbsPath.child output.parent
          (nameStem output.name ++ "_" ++ toString idx ++ nameSuffix output.name)
      let r := persistFiles output total rest (idx + 1)
      ((path, base64_data) :: r.1, r.2)

/-- Filesystem effects of one `generate_image` call: the directory created
by `output.parent.mkdir(parents=True, exist_ok=True)` (if any), the files
written in order, and the exception aborting the write loop (if any). -/
structure PersistResult where
  mkdir : Option AbsPath
  files : List (AbsPath × String)
  error : Option String
deriving DecidableEq, Repr

/-- The persistence step of `generate_image` (client.py lines 166-177),
guarded by `if output_path and images:`; `resolve` models
`Path(output_path).resolve()` (environment-dependent: cwd and symlinks). -/
def generate_image_persist (resolve : String → AbsPath) (output_path : Option String)
    (images : List ImageEntry) : PersistResult :=
  if strTruthy output_path && !images.isEmpty then
    let output := resolve (output_path.getD "")
    let r := persistFiles output images.length images 0
    ⟨some output.parent, r.1, r.2⟩
  else
    ⟨none, [], none⟩

/-- `OpenRouterClient.generate_image` (client.py lines 119-179): builds the
payload, sends it, extracts the image list, persists it when asked to, and
returns the full image list.  The returned triple is the payload sent, the
call's result, and the filesystem effects. -/
def generate_image (resolve : String → AbsPath) (model prompt : String)
    (output_path : Option String) (aspect_ratio size : String)
    (background quality output_format : Option String)
    (responses : Nat → Resp ChatResponse) (maxRetries : Int) :
    ImagePayload × Except String (List ImageEntry) × PersistResult :=
  let payload := generate_image_payload model prompt aspect_ratio size
    background quality output_format
  let tr := request responses maxRetries
  match tr.result with
  | Except.error e => (payload, Except.error e, ⟨none, [], none⟩)
  | Except.ok r =>
    match generate_image_extract r with
    | Except.error e => (payload, Except.error e, ⟨none, [], none⟩)
    | Except.ok images =>
      let pr := generate_image_persist resolve output_path images
      match pr.error with
      | some e => (payload, Except.error e, pr)
      | none => (payload, Except.ok images, pr)

/-- One catalog entry, restricted to the keys the client reads; keys read
with `m.get(key, default)` are `Option`-valued, keys read with `m[key]`
(`slug`, `name`) are taken as present. -/
structure Model where
  slug : String
  name : String
  input_modalities : Option (List String)
  output_modalities : Option (List String)
  supported_parameters : Option (List String)
  context_length : Option Int
deriving DecidableEq, Repr

/-- The filtering step of `OpenRouterClient.list_models` (client.py lines
196-210), applied to the fetched catalog `result.get("data", [])`. -/
def list_models_filter (capability : Option String) (models : List Model) : List Model :=
  if strTruthy capability then
    let c := capability.getD ""
    if c = "vision" then
      models.filter (fun m => (m.input_modalities.getD []).contains "image")
    else if c = "image_gen" then
      models.filter (fun m => (m.output_modalities.getD []).contains "image")
    else if c = "tools" then
      models.filter (fun m => (m.supported_parameters.getD []).contains "tools")
    else if c = "long_context" then
      models.filter (fun m => decide (100000 ≤ m.context_length.getD 0))
    else
      models
  else
    models

/-- The parsed success body of the frontend catalog endpoint, restricted to
the `data` key (read with `result.get("data", [])`). -/
structure CatalogResponse where
  data : Option (List Model)
deriving Repr

/-- `OpenRouterClient.list_models` (client.py lines 181-210): fetch the
catalog through the transport, then filter. -/
def list_models (responses : Nat → Resp CatalogResponse) (capability : Option String) :
    Except String (List Model) :=
  let tr := request responses 3
  match tr.result with
  | Except.error e => Except.error e
  | Except.ok r => Except.ok (list_models_filter capability (r.data.getD []))

/-- Whether `sub` occurs contiguously in the character list. -/
def charsContain (sub : List Char) : List Char → Bool
  | [] => sub.isEmpty
  | a :: rest => sub.isPrefixOf (a :: rest) || charsContain sub rest

/-- Python's substring operator `sub in hay` on strings. -/
def strContains (hay sub : String) : Bool :=
  charsContain sub.toList hay.toList

/-- Python's `str.lower()`, modelled per character with `Char.toLower`
(faithful on the ASCII range; both sides only case-fold model slugs and
display names here). -/
def strLower (s : String) : String :=
  String.mk (s.toList.map Char.toLower)


/-- The matching step of `OpenRouterClient.find_model` (client.py lines
221-227), applied to the unfiltered catalog: case-insensitive substring
match against slug or display name. -/
def find_model (models : List Model) (search_term : String) : List Model :=
  let search_lower := strLower search_term
  models.filter (fun m =>
    strContains (strLower m.slug) search_lower || strContains (strLower m.name) search_lower)

/-- The simplified model dict returned by the `find_models` MCP tool
(server.py lines 212-219). -/
structure SimpleModel where
  slug : String
  name : String
  context_length : Option Int
deriving DecidableEq, Repr

/-- The shaping step of the `find_models` MCP tool (server.py lines
198-219): simplify the matches, limited to the first 20 (`matches[:20]`). -/
def find_models_tool (models : List Model) (search_term : String) : List SimpleModel :=
  ((find_model models search_term).take 20).map (fun m => ⟨m.slug, m.name, m.context_length⟩)

/-- Arithmetic of the backoff schedule: unfolding one retry step of the
sleep list. -/
theorem backoff_range_succ (attempt f : Nat) :
    min (2 ^ attempt * 2) 30
        :: (List.range f).map (fun i => min (2 ^ (attempt + 1 + i) * 2) 30)
      = (List.range (f + 1)).map (fun i => min (2 ^ (attempt + i) * 2) 30) := by
  rw [List.range_succ_eq_map, List.map_cons, List.map_map]
  rw [Nat.add_zero]
  refine congrArg (List.cons _) ?_
  apply List.map_congr_left
  intro a _
  simp only [Function.comp_apply]
  rw [show attempt + 1 + a = attempt + (a + 1) by omega]

/-- Trace of the retry loop when every attempt yields a retryable error
code: one backoff sleep per non-final attempt, one HTTP request per loop
iteration, and a terminal HTTP failure. -/
theorem requestAux_retryable {β : Type} (responses : Nat → Resp β) (maxRetries : Int)
    (hall : ∀ i, isRetryableResp (responses i) = true) :
    ∀ (fuel attempt : Nat), (attempt : Int) + fuel = maxRetries →
    (requestAux responses maxRetries attempt fuel).sleeps
        = (List.range (fuel - 1)).map (fun i => min (2 ^ (attempt + i) * 2) 30)
    ∧ (requestAux responses maxRetries attempt fuel).attemptsMade = fuel
    ∧ (requestAux responses maxRetries attempt fuel).exit
        = (if fuel = 0 then ExitKind.exhausted else ExitKind.httpFail) := by
  intro fuel
  induction fuel with
  | zero => intro attempt _; exact ⟨rfl, rfl, rfl⟩
  | succ f ih =>
    intro attempt hinv
    have hr := hall attempt
    cases hresp : responses attempt with
    | ok body => rw [hresp] at hr; simp [isRetryableResp] at hr
    | timeout => rw [hresp] at hr; simp [isRetryableResp] at hr
    | netExc cause => rw [hresp] at hr; simp [isRetryableResp] at hr
    | httpErr status errCode errMsg text =>
      rw [hresp] at hr
      simp only [isRetryableResp] at hr
      rcases Nat.eq_zero_or_pos f with hf | hf
      · subst hf
        have hlt : ¬ ((attempt : Int) < maxRetries - 1) := by omega
        have hcond : ¬ ((retryable_codes.contains (errCode.getD status)
            && decide ((attempt : Int) < maxRetries - 1)) = true) := by
          simp [hlt]
        simp only [requestAux, hresp]
        rw [if_neg hcond]
        exact ⟨rfl, rfl, rfl⟩
      · have hlt : (attempt : Int) < maxRetries - 1 := by omega
        obtain ⟨hs, ha, he⟩ := ih (attempt + 1) (by push_cast; omega)
        have hfne : f ≠ 0 := Nat.pos_iff_ne_zero.mp hf
        have hcond : (retryable_codes.contains (errCode.getD status)
            && decide ((attempt : Int) < maxRetries - 1)) = true := by
          rw [hr, decide_eq_true hlt]
          rfl
        simp only [requestAux, hresp]
        rw [if_pos hcond]
        refine ⟨?_, ?_, ?_⟩
        · show min (2 ^ attempt * 2) 30
              :: (requestAux responses maxRetries (attempt + 1) f).sleeps = _
          rw [hs]
          obtain ⟨f', rfl⟩ := Nat.exists_eq_succ_of_ne_zero hfne
          rw [Nat.succ_sub_one]
          exact backoff_range_succ attempt f'
        · show (requestAux responses maxRetries (attempt + 1) f).attemptsMade + 1 = f + 1
          rw [ha]
        · show (requestAux responses maxRetries (attempt + 1) f).exit = _
          rw [he, if_neg hfne, if_neg (Nat.succ_ne_zero f)]

/-- Trace of the retry loop when every attempt times out: no sleeps, one
HTTP request per loop iteration, and the distinct timed-out failure. -/
theorem requestAux_timeout {β : Type} (responses : Nat → Resp β) (maxRetries : Int)
    (hall : ∀ i, responses i = Resp.timeout) :
    ∀ (fuel attempt : Nat), (attempt : Int) + fuel = maxRetries →
    (requestAux responses maxRetries attempt fuel).result
        = (if fuel = 0 then Except.error "Max retries exceeded"
           else Except.error "Request timed out after retries")
    ∧ (requestAux responses maxRetries attempt fuel).sleeps = []
    ∧ (requestAux responses maxRetries attempt fuel).attemptsMade = fuel
    ∧ (requestAux responses maxRetries attempt fuel).exit
        = (if fuel = 0 then ExitKind.exhausted else ExitKind.timeoutFail) := by
  intro fuel
  induction fuel with
  | zero => intro attempt _; exact ⟨rfl, rfl, rfl, rfl⟩
  | succ f ih =>
    intro attempt hinv
    rcases Nat.eq_zero_or_pos f with hf | hf
    · subst hf
      have hlt : ¬ ((attempt : Int) < maxRetries - 1) := by omega
      have hcond : ¬ (decide ((attempt : Int) < maxRetries - 1) = true) := by simp [hlt]
      simp only [requestAux, hall attempt]
      rw [if_neg hcond]
      exact ⟨rfl, rfl, rfl, rfl⟩
    · have hlt : (attempt : Int) < maxRetries - 1 := by omega
      obtain ⟨hres, hs, ha, he⟩ := ih (attempt + 1) (by push_cast; omega)
      have hfne : f ≠ 0 := Nat.pos_iff_ne_zero.mp hf
      simp only [requestAux, hall attempt]
      rw [if_pos (decide_eq_true hlt)]
      refine ⟨?_, ?_, ?_, ?_⟩
      · show (requestAux responses maxRetries (attempt + 1) f).result = _
        rw [hres, if_neg hfne, if_neg (Nat.succ_ne_zero f)]
      · exact hs
      · show (requestAux responses maxRetries (attempt + 1) f).attemptsMade + 1 = f + 1
        rw [ha]
      · show (requestAux responses maxRetries (attempt + 1) f).exit = _
        rw [he, if_neg hfne, if_neg (Nat.succ_ne_zero f)]

/-- The fall-through branch at client.py line 82 is unreachable while the
loop still has iterations left: every iteration returns or raises. -/
theorem requestAux_not_exhausted {β : Type} (responses : Nat → Resp β) (maxRetries : Int) :
    ∀ (fuel attempt : Nat), (attempt : Int) + fuel = maxRetries → 1 ≤ fuel →
    (requestAux responses maxRetries attempt fuel).exit ≠ ExitKind.exhausted := by
  intro fuel
  induction fuel with
  | zero => intro attempt _ h; omega
  | succ f ih =>
    intro attempt hinv _
    cases hresp : responses attempt with
    | ok body => simp [requestAux, hresp]
    | netExc cause => simp [requestAux, hresp]
    | httpErr status errCode errMsg text =>
      by_cases hc : (retryable_codes.contains (errCode.getD status)
          && decide ((attempt : Int) < maxRetries - 1)) = true
      · have hlt : (attempt : Int) < maxRetries - 1 :=
          of_decide_eq_true (Bool.and_elim_right hc)
        have hfpos : 1 ≤ f := by omega
        simp only [requestAux, hresp]
        rw [if_pos hc]
        exact ih (attempt + 1) (by push_cast; omega) hfpos
      · simp only [requestAux, hresp]
        rw [if_neg hc]
        simp
    | timeout =>
      by_cases hc : ((attempt : Int) < maxRetries - 1)
      · have hfpos : 1 ≤ f := by omega
        simp only [requestAux, hresp]
        rw [if_pos (decide_eq_true hc)]
        exact ih (attempt + 1) (by push_cast; omega) hfpos
      · have hcond : ¬ (decide ((attempt : Int) < maxRetries - 1) = true) := by simp [hc]
        simp only [requestAux, hresp]
        rw [if_neg hcond]
        simp

/-- C1: when every response carries a retryable error code, every attempt
that is not the last allowed one sleeps for exactly
`min(2 ^ attempt * 2, 30)` time units before retrying (attempt 0-indexed),
so the sleep list is the backoff schedule over attempts
`0 .. maxRetries - 2`; the retryable code on the final attempt is not
retried (exactly `maxRetries` HTTP attempts are issued and the call ends in
the HTTP-failure branch). -/
theorem c1_retry_backoff_schedule {β : Type} (responses : Nat → Resp β) (maxRetries : Int)
    (hall : ∀ i, isRetryableResp (responses i) = true) (hmr : 1 ≤ maxRetries) :
    (request responses maxRetries).sleeps
        = (List.range (maxRetries.toNat - 1)).map (fun attempt => min (2 ^ attempt * 2) 30)
    ∧ (request responses maxRetries).attemptsMade = maxRetries.toNat
    ∧ (request responses maxRetries).exit = ExitKind.httpFail := by
  have hinv : ((0 : Nat) : Int) + (maxRetries.toNat : Int) = maxRetries := by omega
  obtain ⟨hs, ha, he⟩ := requestAux_retryable responses maxRetries hall maxRetries.toNat 0 hinv
  have htne : maxRetries.toNat ≠ 0 := by omega
  refine ⟨?_, ha, ?_⟩
  · rw [request, hs]
    simp
  · rw [request, he, if_neg htne]

/-- Witness for C1: six retryable responses with `max_retries = 7` produce
the exact wait sequence 2, 4, 8, 16, 30, 30. -/
theorem c1_retry_backoff_schedule_witness :
    (request (fun _ => Resp.httpErr (β := Nat) 429 none none "x") 7).sleeps
      = [2, 4, 8, 16, 30, 30] :=
  ((c1_retry_backoff_schedule (fun _ => Resp.httpErr (β := Nat) 429 none none "x") 7
      (fun _ => rfl) (by decide)).1).trans (by decide)

/-- C2: a first response whose extracted code is outside {408, 429, 502,
503} fails immediately — exactly one HTTP attempt, terminal HTTP-failure
exit — with an error carrying that code; the message comes from the fixed
lookup table (which maps exactly 400, 401, 402, 403 and 429 to the fixed
friendly texts) and falls back to the server-supplied message otherwise,
where the code defaults to the HTTP status and the message defaults to the
raw response text. -/
theorem c2_nonretryable_fail_fast {β : Type} (responses : Nat → Resp β) (maxRetries : Int)
    (status : Nat) (errCode : Option Nat) (errMsg : Option String) (text : String)
    (h0 : responses 0 = Resp.httpErr status errCode errMsg text)
    (hcode : retryable_codes.contains (errCode.getD status) = false)
    (hmr : 1 ≤ maxRetries) :
    (request responses maxRetries).result
        = Except.error ("OpenRouter error " ++ toString (errCode.getD status) ++ ": "
            ++ ((error_messages (errCode.getD status)).getD (errMsg.getD text)))
    ∧ (request responses maxRetries).attemptsMade = 1
    ∧ (request responses maxRetries).exit = ExitKind.httpFail
    ∧ error_messages 400 = some "Bad request - check parameters"
    ∧ error_messages 401 = some "Invalid API key - check OPENROUTER_API_KEY"
    ∧ error_messages 402 = some "Insufficient credits - add funds at openrouter.ai"
    ∧ error_messages 403 = some "Content flagged by moderation"
    ∧ error_messages 429 = some "Rate limited - wait before retrying"
    ∧ (∀ c : Nat, c ≠ 400 → c ≠ 401 → c ≠ 402 → c ≠ 403 → c ≠ 429 →
        error_messages c = none) := by
  obtain ⟨k, hk⟩ : ∃ k, maxRetries.toNat = k + 1 := ⟨maxRetries.toNat - 1, by omega⟩
  have hcond : ¬ ((retryable_codes.contains (errCode.getD status)
      && decide (((0 : Nat) : Int) < maxRetries - 1)) = true) := by
    rw [hcode]
    simp
  have hmain : request responses maxRetries
      = ⟨Except.error ("OpenRouter error " ++ toString (errCode.getD status) ++ ": "
          ++ ((error_messages (errCode.getD status)).getD (errMsg.getD text))), [], 1,
          ExitKind.httpFail⟩ := by
    rw [request, hk]
    simp only [requestAux, h0]
    rw [if_neg hcond]
  rw [hmain]
  refine ⟨rfl, rfl, rfl, rfl, rfl, rfl, rfl, rfl, ?_⟩
  intro c h1 h2 h3 h4 h5
  simp [error_messages, h1, h2, h3, h4, h5]

/-- Witness for C2: a 500 error with a server-supplied message fails on the
first attempt with the server's text. -/
theorem c2_nonretryable_fail_fast_witness :
    (request (fun _ => Resp.httpErr (β := Nat) 500 none (some "boom") "txt") 3).result
        = Except.error ("OpenRouter error " ++ toString ((none : Option Nat).getD 500)
            ++ ": " ++ ((error_messages ((none : Option Nat).getD 500)).getD
              ((some "boom").getD "txt")))
    ∧ (request (fun _ => Resp.httpErr (β := Nat) 500 none (some "boom") "txt") 3).attemptsMade
        = 1 := by
  have h := c2_nonretryable_fail_fast (fun _ => Resp.httpErr (β := Nat) 500 none
    (some "boom") "txt") 3 500 none (some "boom") "txt" rfl rfl (by decide)
  exact ⟨h.1, h.2.1⟩

/-- C3: when every attempt up to `max_retries` times out, each non-final
timeout is retried immediately with no backoff sleep (the sleep list is
empty, one HTTP attempt per loop iteration), and the call fails with the
distinct timed-out error, not the generic max-retries-exceeded error. -/
theorem c3_timeout_distinct_failure {β : Type} (responses : Nat → Resp β) (maxRetries : Int)
    (hall : ∀ i, responses i = Resp.timeout) (hmr : 1 ≤ maxRetries) :
    (request responses maxRetries).result = Except.error "Request timed out after retries"
    ∧ (request responses maxRetries).result ≠ Except.error "Max retries exceeded"
    ∧ (request responses maxRetries).sleeps = []
    ∧ (request responses maxRetries).attemptsMade = maxRetries.toNat
    ∧ (request responses maxRetries).exit = ExitKind.timeoutFail := by
  have hinv : ((0 : Nat) : Int) + (maxRetries.toNat : Int) = maxRetries := by omega
  obtain ⟨hres, hs, ha, he⟩ :=
    requestAux_timeout responses maxRetries hall maxRetries.toNat 0 hinv
  have htne : maxRetries.toNat ≠ 0 := by omega
  have hr : (request responses maxRetries).result
      = Except.error "Request timed out after retries" := by
    rw [request, hres, if_neg htne]
  refine ⟨hr, ?_, by rw [request, hs], by rw [request, ha], by rw [request, he, if_neg htne]⟩
  rw [hr]
  intro h
  exact absurd (Except.error.inj h) (by decide)

/-- Witness for C3: three timeouts with `max_retries = 3` yield the
timed-out failure with no sleeps. -/
theorem c3_timeout_distinct_failure_witness :
    (request (fun _ => Resp.timeout (β := Nat)) 3).result
        = Except.error "Request timed out after retries"
    ∧ (request (fun _ => Resp.timeout (β := Nat)) 3).sleeps = [] := by
  have h := c3_timeout_distinct_failure (fun _ => Resp.timeout (β := Nat)) 3
    (fun _ => rfl) (by decide)
  exact ⟨h.1, h.2.2.1⟩

/-- C4: a connection-level transport exception on the first attempt fails
the call immediately with the "Network error: " marker wrapping the cause;
exactly one HTTP attempt is issued (zero retries), no sleeps, regardless of
`max_retries`. -/
theorem c4_network_error_no_retry {β : Type} (responses : Nat → Resp β) (maxRetries : Int)
    (cause : String) (h0 : responses 0 = Resp.netExc cause) (hmr : 1 ≤ maxRetries) :
    (request responses maxRetries).result = Except.error ("Network error: " ++ cause)
    ∧ (request responses maxRetries).attemptsMade = 1
    ∧ (request responses maxRetries).sleeps = []
    ∧ (request responses maxRetries).exit = ExitKind.netFail := by
  obtain ⟨k, hk⟩ : ∃ k, maxRetries.toNat = k + 1 := ⟨maxRetries.toNat - 1, by omega⟩
  have hmain : request responses maxRetries
      = ⟨Except.error ("Network error: " ++ cause), [], 1, ExitKind.netFail⟩ := by
    rw [request, hk]
    simp only [requestAux, h0]
  rw [hmain]
  exact ⟨rfl, rfl, rfl, rfl⟩

/-- Witness for C4: a DNS failure on attempt 0 with `max_retries = 3` fails
immediately with the network marker and one attempt. -/
theorem c4_network_error_no_retry_witness :
    (request (fun _ => Resp.netExc (β := Nat) "dns down") 3).result
        = Except.error ("Network error: " ++ "dns down")
    ∧ (request (fun _ => Resp.netExc (β := Nat) "dns down") 3).attemptsMade = 1 := by
  have h := c4_network_error_no_retry (fun _ => Resp.netExc (β := Nat) "dns down") 3
    "dns down" rfl (by decide)
  exact ⟨h.1, h.2.1⟩

/-- C9: for `max_retries ≥ 1` the generic max-retries-exceeded branch after
the loop is unreachable — every loop iteration returns the success body or
raises a terminal error, so the loop never falls through; for
`max_retries ≤ 0` the call raises that generic error having issued zero
HTTP attempts. -/
theorem c9_exhaustion_branch {β : Type} (responses : Nat → Resp β) (maxRetries : Int) :
    (1 ≤ maxRetries → (request responses maxRetries).exit ≠ ExitKind.exhausted)
    ∧ (maxRetries ≤ 0 →
        request responses maxRetries
          = ⟨Except.error "Max retries exceeded", [], 0, ExitKind.exhausted⟩) := by
  constructor
  · intro hmr
    have hinv : ((0 : Nat) : Int) + (maxRetries.toNat : Int) = maxRetries := by omega
    exact requestAux_not_exhausted responses maxRetries maxRetries.toNat 0 hinv (by omega)
  · intro hmr
    have ht : maxRetries.toNat = 0 := by omega
    rw [request, ht]
    rfl

/-- Witness for C9: with `max_retries = 3` and an immediate success the
loop does not fall through; with `max_retries = 0` the generic error is
raised with zero attempts. -/
theorem c9_exhaustion_branch_witness :
    (request (fun _ => Resp.ok (β := Nat) 7) 3).exit ≠ ExitKind.exhausted
    ∧ request (fun _ => Resp.ok (β := Nat) 7) 0
        = ⟨Except.error "Max retries exceeded", [], 0, ExitKind.exhausted⟩ :=
  ⟨(c9_exhaustion_branch (fun _ => Resp.ok (β := Nat) 7) 3).1 (by decide),
    (c9_exhaustion_branch (fun _ => Resp.ok (β := Nat) 7) 0).2 (by decide)⟩

/-- C5: `chat_simple` with no system prompt sends exactly the single user
message built from the prompt; with a (truthy) system prompt it prepends
exactly one system message ahead of it; on a transport success it returns
exactly `choices[0].message.content`, which succeeds precisely when that
path is present and fails with a structural error when any step of the path
is absent. -/
theorem c5_chat_simple_shape (model prompt s : String) (hs : s ≠ "")
    (responses : Nat → Resp ChatResponse) (maxRetries : Int) :
    (chat_simple model prompt none responses maxRetries).1.messages
        = [⟨"user", prompt⟩]
    ∧ (chat_simple model prompt (some s) responses maxRetries).1.messages
        = [⟨"system", s⟩, ⟨"user", prompt⟩]
    ∧ (∀ r : ChatResponse, (request responses maxRetries).result = Except.ok r →
        (chat_simple model prompt none responses maxRetries).2 = chat_simple_extract r)
    ∧ (∀ (r : ChatResponse) (c : Choice) (rest : List Choice) (m : ChatMessage)
        (t : String), r.choices = some (c :: rest) → c.message = some m →
        m.content = some t → chat_simple_extract r = Except.ok t)
    ∧ (∀ r : ChatResponse,
        (r.choices = none ∨ r.choices = some []
          ∨ (∃ c rest, r.choices = some (c :: rest)
              ∧ (c.message = none ∨ ∃ m, c.message = some m ∧ m.content = none))) →
        ∃ e, chat_simple_extract r = Except.error e) := by
  refine ⟨rfl, ?_, ?_, ?_, ?_⟩
  · simp [chat_simple, chat_simple_messages, strTruthy, hs]
  · intro r hr
    simp [chat_simple, hr]
  · intro r c rest m t h1 h2 h3
    simp [chat_simple_extract, h1, h2, h3]
  · intro r hr
    rcases hr with h | h | ⟨c, rest, h1, h2 | ⟨m, h2, h3⟩⟩
    · exact ⟨"KeyError: choices", by simp [chat_simple_extract, h]⟩
    · exact ⟨"IndexError: list index out of range", by simp [chat_simple_extract, h]⟩
    · exact ⟨"KeyError: message", by simp [chat_simple_extract, h1, h2]⟩
    · exact ⟨"KeyError: content", by simp [chat_simple_extract, h1, h2, h3]⟩

/-- Witness for C5: a concrete call with system prompt "sys" sends the
system message first and the user message second. -/
theorem c5_chat_simple_shape_witness :
    (chat_simple "m" "hello" (some "sys") (fun _ => Resp.timeout) 3).1.messages
      = [⟨"system", "sys"⟩, ⟨"user", "hello"⟩] :=
  (c5_chat_simple_shape "m" "hello" "sys" (by decide) (fun _ => Resp.timeout) 3).2.1

/-- C10: optional string parameters that are supplied but falsy are treated
as absent — an empty-string system prompt yields only the user message,
identical to passing no system prompt; empty-string `background`, `quality`
or `output_format` leave the corresponding top-level payload field omitted,
producing the identical payload to not supplying the parameter. -/
theorem c10_falsy_optionals_omitted (model prompt aspect_ratio size : String)
    (b q f : Option String) :
    chat_simple_messages prompt (some "") = [⟨"user", prompt⟩]
    ∧ chat_simple_messages prompt (some "") = chat_simple_messages prompt none
    ∧ generate_image_payload model prompt aspect_ratio size (some "") q f
        = generate_image_payload model prompt aspect_ratio size none q f
    ∧ generate_image_payload model prompt aspect_ratio size b (some "") f
        = generate_image_payload model prompt aspect_ratio size b none f
    ∧ generate_image_payload model prompt aspect_ratio size b q (some "")
        = generate_image_payload model prompt aspect_ratio size b q none
    ∧ (generate_image_payload model prompt aspect_ratio size (some "") q f).background = none
    ∧ (generate_image_payload model prompt aspect_ratio size b (some "") f).quality = none
    ∧ (generate_image_payload model prompt aspect_ratio size b q (some "")).output_format
        = none :=
  ⟨rfl, rfl, rfl, rfl, rfl, rfl, rfl, rfl⟩

/-- C7: `list_models` filtering — "vision" keeps exactly the entries whose
input-modality set contains "image", "image_gen" exactly those whose
output-modality set contains "image", "tools" exactly those whose
supported-parameter set contains "tools", "long_context" exactly those with
context length at least 100000, and any unrecognized filter name passes the
whole catalog through unchanged. -/
theorem c7_list_models_capability_filters (ms : List Model) (c : String) :
    (∀ m, m ∈ list_models_filter (some "vision") ms
        ↔ m ∈ ms ∧ "image" ∈ m.input_modalities.getD [])
    ∧ (∀ m, m ∈ list_models_filter (some "image_gen") ms
        ↔ m ∈ ms ∧ "image" ∈ m.output_modalities.getD [])
    ∧ (∀ m, m ∈ list_models_filter (some "tools") ms
        ↔ m ∈ ms ∧ "tools" ∈ m.supported_parameters.getD [])
    ∧ (∀ m, m ∈ list_models_filter (some "long_context") ms
        ↔ m ∈ ms ∧ 100000 ≤ m.context_length.getD 0)
    ∧ (c ≠ "vision" → c ≠ "image_gen" → c ≠ "tools" → c ≠ "long_context" →
        list_models_filter (some c) ms = ms) := by
  refine ⟨?_, ?_, ?_, ?_, ?_⟩
  · intro m
    rw [show list_models_filter (some "vision") ms
        = ms.filter (fun m => (m.input_modalities.getD []).contains "image") from rfl]
    simp [List.mem_filter]
  · intro m
    rw [show list_models_filter (some "image_gen") ms
        = ms.filter (fun m => (m.output_modalities.getD []).contains "image") from rfl]
    simp [List.mem_filter]
  · intro m
    rw [show list_models_filter (some "tools") ms
        = ms.filter (fun m => (m.supported_parameters.getD []).contains "tools") from rfl]
    simp [List.mem_filter]
  · intro m
    rw [show list_models_filter (some "long_context") ms
        = ms.filter (fun m => decide (100000 ≤ m.context_length.getD 0)) from rfl]
    simp [List.mem_filter]
  · intro h1 h2 h3 h4
    by_cases hc : c = ""
    · subst hc
      rfl
    · simp [list_models_filter, strTruthy, hc, h1, h2, h3, h4]

/-- Witness for C7: a one-element catalog passes through an unrecognized
filter name untouched. -/
theorem c7_list_models_capability_filters_witness :
    list_models_filter (some "bogus") [⟨"s", "n", none, none, none, none⟩]
      = [⟨"s", "n", none, none, none, none⟩] :=
  (c7_list_models_capability_filters [⟨"s", "n", none, none, none, none⟩]
    "bogus").2.2.2.2 (by decide) (by decide) (by decide) (by decide)

/-- C8: `find_model` returns exactly the catalog entries whose slug or
display name contains the search term case-insensitively, preserving
catalog order (a sublist of the catalog) with no cap of its own; a term
with zero matches yields the empty list; the 20-entry cap is applied only
by the `find_models` tool layer on top of it. -/
theorem c8_find_model_matches (ms : List Model) (t : String) :
    (∀ m, m ∈ find_model ms t
        ↔ m ∈ ms ∧ (strContains (strLower m.slug) (strLower t) = true
            ∨ strContains (strLower m.name) (strLower t) = true))
    ∧ List.Sublist (find_model ms t) ms
    ∧ ((∀ m ∈ ms, strContains (strLower m.slug) (strLower t) = false
          ∧ strContains (strLower m.name) (strLower t) = false) → find_model ms t = [])
    ∧ find_models_tool ms t
        = ((find_model ms t).take 20).map (fun m => ⟨m.slug, m.name, m.context_length⟩) := by
  refine ⟨?_, List.filter_sublist ms, ?_, rfl⟩
  · intro m
    rw [show find_model ms t = ms.filter (fun m =>
        strContains (strLower m.slug) (strLower t) || strContains (strLower m.name) (strLower t))
      from rfl]
    simp [List.mem_filter]
  · intro hnone
    rw [show find_model ms t = ms.filter (fun m =>
        strContains (strLower m.slug) (strLower t) || strContains (strLower m.name) (strLower t))
      from rfl]
    rw [List.filter_eq_nil_iff]
    intro m hm
    rw [(hnone m hm).1, (hnone m hm).2]
    simp

/-- Witness for C8: a term with zero matches on a one-entry catalog returns
the empty list. -/
theorem c8_find_model_matches_witness :
    find_model [⟨"openai/gpt-4", "GPT-4", none, none, none, none⟩] "claude" = [] :=
  (c8_find_model_matches [⟨"openai/gpt-4", "GPT-4", none, none, none, none⟩]
    "claude").2.2.1 (by decide)

/-- A pathlib name component is always the concatenation of its stem and
its suffix. -/
theorem stem_append_suffix (name : String) : nameStem name ++ nameSuffix name = name := by
  simp only [nameStem, nameSuffix]
  cases h : lastIdxOf '.' name.toList with
  | none => exact String.append_empty name
  | some i =>
    by_cases hi : 0 < i ∧ i < name.toList.length - 1
    · dsimp only
      rw [if_pos hi, if_pos hi]
      show String.mk (name.toList.take i ++ name.toList.drop i) = name
      rw [List.take_append_drop]
      rfl
    · dsimp only
      rw [if_neg hi, if_neg hi]
      exact String.append_empty name

/-- Interposing an index marker between a stem and a suffix always changes
the string (the lengths differ by at least one). -/
theorem appended_index_ne (stem mid suffix : String) :
    stem ++ "_" ++ mid ++ suffix ≠ stem ++ suffix := by
  intro h
  have hlen := congrArg String.length h
  simp only [String.length_append] at hlen
  rw [show ("_" : String).length = 1 from rfl] at hlen
  omega

/-- The indexed sibling path `{stem}_{idx}{suffix}` is never the given path
itself. -/
theorem given_path_ne_indexed (p : AbsPath) (idx : Nat) :
    AbsPath.child p.parent
        (nameStem p.name ++ "_" ++ toString idx ++ nameSuffix p.name) ≠ p := by
  obtain ⟨cs⟩ := p
  rcases cs.eq_nil_or_concat' with rfl | ⟨l, a, rfl⟩
  · intro h
    have hcomp := congrArg AbsPath.components h
    simp [AbsPath.child, AbsPath.parent] at hcomp
  · intro h
    have hcomp := congrArg AbsPath.components h
    simp only [AbsPath.child, AbsPath.parent, AbsPath.name, List.dropLast_concat,
      List.getLast?_concat, Option.getD_some] at hcomp
    have hnm := List.append_cancel_left hcomp
    have hnm2 : nameStem a ++ "_" ++ toString idx ++ nameSuffix a = a := by
      simpa using hnm
    exact appended_index_ne (nameStem a) (toString idx) (nameSuffix a)
      (hnm2.trans (stem_append_suffix a).symm)

/-- The write loop over a list of well-formed data URLs writes one file per
image at the computed target path (the output path itself when the batch
has exactly one image, else the indexed sibling), and raises nothing. -/
theorem persistFiles_wellformed (output : AbsPath) (total : Nat) :
    ∀ (imgs : List ImageEntry) (idx : Nat),
    (∀ img ∈ imgs, ((pySplit img.image_url.url ',').get? 1).isSome = true) →
    (persistFiles output total imgs idx).1.map Prod.fst
        = (List.range imgs.length).map (fun i =>
            if total = 1 then output
            else AbsPath.child output.parent
              (nameStem output.name ++ "_" ++ toString (idx + i) ++ nameSuffix output.name))
    ∧ (persistFiles output total imgs idx).2 = none := by
  intro imgs
  induction imgs with
  | nil => intro idx _; exact ⟨rfl, rfl⟩
  | cons img rest ih =>
    intro idx hwf
    obtain ⟨b, hb⟩ := Option.isSome_iff_exists.mp (hwf img (List.mem_cons_self img rest))
    obtain ⟨hmap, herr⟩ := ih (idx + 1) (fun x hx => hwf x (List.mem_cons_of_mem img hx))
    constructor
    · simp only [persistFiles, hb, List.map_cons, List.length_cons]
      rw [hmap, List.range_succ_eq_map, List.map_cons, List.map_map]
      rw [Nat.add_zero]
      refine congrArg (List.cons _) ?_
      apply List.map_congr_left
      intro i _
      simp only [Function.comp_apply]
      rw [show idx + 1 + i = idx + (i + 1) by omega]
    · simp only [persistFiles, hb]
      exact herr

/-- C6: with a truthy output path and a non-empty image list of well-formed
data URLs, a single returned image is written exactly at the resolved given
path; `n ≥ 2` returned images are written exactly at the indexed sibling
paths `{stem}_{idx}{suffix}` for `idx = 0 .. n-1` and the given path itself
is never among the written paths; the parent directory is created; nothing
is written when the output path is absent (or falsy) or the image list is
empty; and the full image-descriptor list is returned whenever the call
reaches the persistence step without error. -/
theorem c6_generate_image_persistence (resolve : String → AbsPath) (p : String)
    (hp : p ≠ "") (images : List ImageEntry)
    (hwf : ∀ img ∈ images, ((pySplit img.image_url.url ',').get? 1).isSome = true) :
    (images.length = 1 →
      (generate_image_persist resolve (some p) images).files.map Prod.fst = [resolve p])
    ∧ (2 ≤ images.length →
        (generate_image_persist resolve (some p) images).files.map Prod.fst
          = (List.range images.length).map (fun idx =>
              AbsPath.child (resolve p).parent
                (nameStem (resolve p).name ++ "_" ++ toString idx
                  ++ nameSuffix (resolve p).name)))
    ∧ (2 ≤ images.length →
        resolve p ∉ (generate_image_persist resolve (some p) images).files.map Prod.fst)
    ∧ (images ≠ [] →
        (generate_image_persist resolve (some p) images).mkdir = some (resolve p).parent)
    ∧ (generate_image_persist resolve (some p) [] = ⟨none, [], none⟩)
    ∧ (∀ imgs : List ImageEntry, generate_image_persist resolve none imgs = ⟨none, [], none⟩
        ∧ generate_image_persist resolve (some "") imgs = ⟨none, [], none⟩)
    ∧ (∀ (responses : Nat → Resp ChatResponse) (maxRetries : Int) (r : ChatResponse)
        (imgs : List ImageEntry) (model prompt aspect_ratio size : String)
        (bg q fmt : Option String) (op : Option String),
        (request responses maxRetries).result = Except.ok r →
        generate_image_extract r = Except.ok imgs →
        (generate_image_persist resolve op imgs).error = none →
        (generate_image resolve model prompt op aspect_ratio size bg q fmt
            responses maxRetries).2.1 = Except.ok imgs) := by
  have hmap2 : 2 ≤ images.length →
      (generate_image_persist resolve (some p) images).files.map Prod.fst
        = (List.range images.length).map (fun idx =>
            AbsPath.child (resolve p).parent
              (nameStem (resolve p).name ++ "_" ++ toString idx
                ++ nameSuffix (resolve p).name)) := by
    intro h2
    have hne : images ≠ [] := by
      intro he
      rw [he] at h2
      simp at h2
    have hcond : (strTruthy (some p) && !images.isEmpty) = true := by
      simp [strTruthy, hp, hne]
    obtain ⟨hmap, _⟩ := persistFiles_wellformed (resolve p) images.length images 0 hwf
    simp only [generate_image_persist, Option.getD_some]
    rw [if_pos hcond]
    show (persistFiles (resolve p) images.length images 0).1.map Prod.fst = _
    rw [hmap]
    apply List.map_congr_left
    intro i _
    rw [if_neg (by omega : ¬ images.length = 1), Nat.zero_add]
  refine ⟨?_, hmap2, ?_, ?_, ?_, ?_, ?_⟩
  · intro h1
    have hne : images ≠ [] := by
      intro he
      rw [he] at h1
      simp at h1
    have hcond : (strTruthy (some p) && !images.isEmpty) = true := by
      simp [strTruthy, hp, hne]
    obtain ⟨hmap, _⟩ := persistFiles_wellformed (resolve p) images.length images 0 hwf
    simp only [generate_image_persist, Option.getD_some]
    rw [if_pos hcond]
    show (persistFiles (resolve p) images.length images 0).1.map Prod.fst = _
    rw [hmap, h1]
    simp
  · intro h2 hmem
    rw [hmap2 h2] at hmem
    obtain ⟨i, _, hi⟩ := List.mem_map.mp hmem
    exact given_path_ne_indexed (resolve p) i hi
  · intro hne
    have hcond : (strTruthy (some p) && !images.isEmpty) = true := by
      simp [strTruthy, hp, hne]
    simp only [generate_image_persist, Option.getD_some]
    rw [if_pos hcond]
  · have hcond : ¬ ((strTruthy (some p) && !(List.isEmpty ([] : List ImageEntry))) = true) := by
      simp
    simp only [generate_image_persist]
    rw [if_neg hcond]
  · intro imgs
    constructor
    · rfl
    · have hcond : ¬ ((strTruthy (some "") && !imgs.isEmpty) = true) := by
        simp [strTruthy]
      simp only [generate_image_persist]
      rw [if_neg hcond]
  · intro responses maxRetries r imgs model prompt aspect_ratio size bg q fmt op h1 h2 h3
    simp [generate_image, h1, h2, h3]

/-- Witness for C6: two returned images against path `/out/img.png` are
written exactly at `/out/img_0.png` and `/out/img_1.png`, not at the given
path. -/
theorem c6_generate_image_persistence_witness :
    (generate_image_persist (fun _ => ⟨["out", "img.png"]⟩) (some "/out/img.png")
        [⟨⟨"data:image/png;base64,AAA"⟩⟩, ⟨⟨"data:image/png;base64,BBB"⟩⟩]).files.map Prod.fst
      = [⟨["out", "img_0.png"]⟩, ⟨["out", "img_1.png"]⟩] := by
  have h := c6_generate_image_persistence (fun _ => ⟨["out", "img.png"]⟩) "/out/img.png"
    (by decide) [⟨⟨"data:image/png;base64,AAA"⟩⟩, ⟨⟨"data:image/png;base64,BBB"⟩⟩]
    (by decide)
  exact (h.2.1 (by decide)).trans (by decide)

end McpOpenRouter
